import Mathlib

/-!
Verification development for the hlp-toshogu metrics pipeline.

Shallow embedding of the Rust sources:
  * `src/model/mod.rs`        — domain value types
  * `src/metrics/risk.rs`     — batch risk calculators
  * `src/metrics/streaming.rs`— streaming metrics engine
  * `src/metrics/mod.rs`      — batch metric assembly
  * `src/alert.rs`            — alert evaluator
  * `src/main.rs`             — `update_metrics` snapshot merge / overlay

Conventions of the embedding:
  * `f64`, `f32` and `rust_decimal::Decimal` values are modelled as `ℚ`;
    `Decimal::to_f64().unwrap_or(0.0)` is the identity in this model.
  * `HashMap` is modelled as an association list (`List (κ × α)`) with
    insert-replacing-existing-key semantics; `Vec`/`VecDeque` as `List`.
  * Impure ingredients are parameters of the embedding: wall-clock instants
    and timestamps are `ℕ` arguments, `f64::sqrt` and `f64::tanh` (whose
    results are machine doubles, hence rationals) are uninterpreted
    `ℚ → ℚ` arguments where they occur inside the merged pipeline.
  * `Alert.id` (a fresh UUID), `Alert.message` (formatted text) and
    `Alert.timestamp` (`Utc::now()`) are impure and carry no logical
    content; the embedded `Alert` keeps the deterministic fields.
-/

/-- Replace-or-append insertion for the association-list model of `HashMap`. -/
def mapInsert {κ α : Type} [DecidableEq κ] (k : κ) (v : α) : List (κ × α) → List (κ × α)
  | [] => [(k, v)]
  | (k', v') :: rest => if k' = k then (k, v) :: rest else (k', v') :: mapInsert k v rest

/-- Lookup in the association-list model of `HashMap`. -/
def mapLookup {κ α : Type} [DecidableEq κ] (k : κ) : List (κ × α) → Option α
  | [] => none
  | (k', v') :: rest => if k' = k then some v' else mapLookup k rest

/-- Key removal in the association-list model of `HashMap` (`HashMap::remove`). -/
def mapRemove {κ α : Type} [DecidableEq κ] (k : κ) : List (κ × α) → List (κ × α)
  | [] => []
  | (k', v') :: rest => if k' = k then rest else (k', v') :: mapRemove k rest

/-- `entry(k).or_insert(0) += v` on the association-list model of `HashMap`. -/
def mapAdd {κ α : Type} [DecidableEq κ] [Add α] [Zero α] (k : κ) (v : α)
    (m : List (κ × α)) : List (κ × α) :=
  mapInsert k (((mapLookup k m).getD 0) + v) m

/-- `HashMap::values` on the association-list model. -/
def mapValues {κ α : Type} (m : List (κ × α)) : List α := m.map Prod.snd

/-- Rust `f64::clamp(0.0, 1.0)` (also used for the `f32` clamp in the source). -/
def clamp01 (x : ℚ) : ℚ := min (max x 0) 1

/-- `AssetInfo` from `src/model/mod.rs`. -/
structure AssetInfo where
  name : String
  sz_decimals : ℕ
  max_leverage : ℕ
  only_isolated : Bool
deriving DecidableEq

/-- `Meta` from `src/model/mod.rs`; the Rust field `universe` is a Lean
keyword, so it is embedded as `asset_universe`. -/
structure Meta where
  asset_universe : List AssetInfo
deriving DecidableEq

/-- `Fill` from `src/model/mod.rs`. -/
structure Fill where
  coin : String
  px : ℚ
  sz : ℚ
  side : String
  time : ℕ
  start_position : ℚ
  dir : String
  closed_pnl : ℚ
  hash : String
  oid : ℕ
  crossed : Bool
  fee : ℚ
deriving DecidableEq

/-- `OrderBookLevel` from `src/model/mod.rs`. -/
structure OrderBookLevel where
  px : ℚ
  sz : ℚ
  n : ℕ
deriving DecidableEq, Inhabited

/-- `L2Snapshot` from `src/model/mod.rs`. -/
structure L2Snapshot where
  coin : String
  time : ℕ
  bids : List OrderBookLevel
  asks : List OrderBookLevel
deriving DecidableEq

/-- `VaultSummary` from `src/model/mod.rs`. -/
structure VaultSummary where
  vault_address : String
  tvl : ℚ
  equity : ℚ
  apr : ℚ
  all_time_pnl : ℚ
  max_drawdown : ℚ
  num_depositors : ℕ
  portfolio_value : ℚ
  deployed_liquidity : ℚ
  idle_liquidity : ℚ
deriving DecidableEq

/-- `Position` from `src/model/mod.rs`. -/
structure Position where
  symbol : String
  size : ℚ
  entry_px : Option ℚ
  position_value : ℚ
  unrealized_pnl : ℚ
  margin_used : ℚ
deriving DecidableEq

/-- `UserState` from `src/model/mod.rs`. -/
structure UserState where
  account_value : ℚ
  total_margin_used : ℚ
  total_ntl_pos : ℚ
  total_raw_usd : ℚ
  positions : List Position
deriving DecidableEq

/-- `VaultMetrics` from `src/model/mod.rs`. -/
structure VaultMetrics where
  tvl : ℚ
  equity : ℚ
  apr : ℚ
  utilization_rate : ℚ
  deployed_liquidity : ℚ
  idle_liquidity : ℚ
deriving DecidableEq

/-- `PerformanceMetrics` from `src/model/mod.rs`. -/
structure PerformanceMetrics where
  daily_pnl : ℚ
  unrealized_pnl : ℚ
  total_volume : ℚ
  sharpe_ratio : ℚ
  sortino_ratio : ℚ
  realized_spread : List (String × ℚ)
  adverse_selection_cost : ℚ
deriving DecidableEq

/-- `LiquidityMetrics` from `src/model/mod.rs`. -/
structure LiquidityMetrics where
  bid_ask_spread_bps : List (String × ℚ)
  depth_at_50bps : List (String × ℚ)
  order_book_imbalance : List (String × ℚ)
  avg_order_lifetime_ms : ℚ
  cancel_rate : ℚ
  fleeting_order_ratio : ℚ
  layering_detection_score : ℚ
  spoofing_detection_index : ℚ
  liquidity_realization_rate : ℚ
  fill_probability_by_distance : List (String × ℚ)
deriving DecidableEq

/-- `RiskMetrics` from `src/model/mod.rs`. -/
structure RiskMetrics where
  vpin_score : ℚ
  phantom_liquidity_index : ℚ
  liquidation_risk_score : ℚ
  cascade_risk_score : ℚ
  position_concentration : List (String × ℚ)
  max_drawdown : ℚ
  cross_exchange_manipulation_score : ℚ
deriving DecidableEq

/-- `GlobalMetrics` from `src/model/mod.rs`; `last_update` (a
`chrono::DateTime`) is modelled as an optional `ℕ` timestamp. -/
structure GlobalMetrics where
  vault_metrics : VaultMetrics
  performance_metrics : PerformanceMetrics
  liquidity_metrics : LiquidityMetrics
  risk_metrics : RiskMetrics
  last_update : Option ℕ
deriving DecidableEq

/-- `AlertLevel` from `src/model/mod.rs`. -/
inductive AlertLevel where
  | Info
  | Warning
  | Critical
deriving DecidableEq

/-- `Alert` from `src/model/mod.rs`, restricted to its deterministic fields
(`id`, `message`, `timestamp` come from `Uuid::new_v4`, `format!` and
`Utc::now()` respectively and are impure). -/
structure Alert where
  level : AlertLevel
  metric : String
  value : ℚ
  threshold : ℚ
deriving DecidableEq

/-- `OrderAction` from `src/model/mod.rs`. -/
inductive OrderAction where
  | New
  | Filled
  | Cancelled
deriving DecidableEq

/-- `OrderEvent` from `src/model/mod.rs`. -/
structure OrderEvent where
  id : ℕ
  action : OrderAction
  coin : String
  side : String
  px : ℚ
  sz : ℚ
  timestamp : ℕ
deriving DecidableEq

/-! ### `src/metrics/risk.rs` — batch risk calculators -/

/-- Membership in the `major_assets` set of `calculate_vpin`
(`src/metrics/risk.rs`): names of universe assets with `max_leverage >= 10`. -/
def major_assets_contains (meta : Meta) (coin : String) : Bool :=
  meta.asset_universe.any (fun asset => decide (10 ≤ asset.max_leverage) && asset.name == coin)

/-- Per-fill accumulator of `calculate_vpin` (`src/metrics/risk.rs`): the
local mutable state of the `for fill in fills` loop. -/
structure VpinAcc where
  current_bucket_volume : ℚ
  current_buy_volume : ℚ
  current_sell_volume : ℚ
  buckets : List ℚ
deriving DecidableEq

/-- One iteration of the `for fill in fills` loop of `calculate_vpin`
(`src/metrics/risk.rs`, lines 22–50); `bucket_size` is the literal 10000. -/
def calculate_vpin_step (meta : Meta) (st : VpinAcc) (fill : Fill) : VpinAcc :=
  if major_assets_contains meta fill.coin then
    let volume := fill.px * |fill.sz|
    let st :=
      if fill.side == "B" then { st with current_buy_volume := st.current_buy_volume + volume }
      else { st with current_sell_volume := st.current_sell_volume + volume }
    let st := { st with current_bucket_volume := st.current_bucket_volume + volume }
    if (10000 : ℚ) ≤ st.current_bucket_volume then
      let imbalance := |st.current_buy_volume - st.current_sell_volume|
      let total_volume := st.current_buy_volume + st.current_sell_volume
      let st :=
        if 0 < total_volume then { st with buckets := st.buckets ++ [imbalance / total_volume] }
        else st
      { st with current_bucket_volume := 0, current_buy_volume := 0, current_sell_volume := 0 }
    else st
  else st

/-- `calculate_vpin` from `src/metrics/risk.rs`. -/
def calculate_vpin (fills : List Fill) (meta : Meta) : ℚ :=
  if fills = [] then 0
  else
    let final := fills.foldl (calculate_vpin_step meta) ⟨0, 0, 0, []⟩
    if final.buckets = [] then 0
    else
      let window_size := min 50 final.buckets.length
      let recent_buckets := final.buckets.drop (final.buckets.length - window_size)
      recent_buckets.sum / (recent_buckets.length : ℚ)

/-- `calculate_phantom_liquidity_index` from `src/metrics/risk.rs`. -/
def calculate_phantom_liquidity_index (liquidity_metrics : LiquidityMetrics) : ℚ :=
  let fleeting_weight : ℚ := 0.25
  let fill_prob_weight : ℚ := 0.20
  let layering_weight : ℚ := 0.20
  let spoofing_weight : ℚ := 0.20
  let realization_weight : ℚ := 0.15
  let avg_fill_prob : ℚ :=
    if liquidity_metrics.fill_probability_by_distance = [] then 0
    else
      (mapValues liquidity_metrics.fill_probability_by_distance).sum
        / ((mapValues liquidity_metrics.fill_probability_by_distance).length : ℚ)
  let phantom_score :=
    liquidity_metrics.fleeting_order_ratio * fleeting_weight +
    (1 - avg_fill_prob) * fill_prob_weight +
    liquidity_metrics.layering_detection_score * layering_weight +
    liquidity_metrics.spoofing_detection_index * spoofing_weight +
    (1 - liquidity_metrics.liquidity_realization_rate) * realization_weight
  clamp01 phantom_score

/-- `calculate_liquidation_risk` from `src/metrics/risk.rs`. -/
def calculate_liquidation_risk (vault_summary : VaultSummary) : ℚ :=
  if vault_summary.tvl = 0 then 1
  else
    let equity_ratio := vault_summary.equity / vault_summary.tvl
    let drawdown_factor := clamp01 vault_summary.max_drawdown
    let base_risk := 1 - equity_ratio
    let adjusted_risk := base_risk + drawdown_factor * 0.5
    clamp01 adjusted_risk

/-- Membership in the `major_assets` set of `calculate_cascade_risk`
(`src/metrics/risk.rs`): names of universe assets with `max_leverage >= 5`. -/
def cascade_major_contains (meta : Meta) (coin : String) : Bool :=
  meta.asset_universe.any (fun asset => decide (5 ≤ asset.max_leverage) && asset.name == coin)

/-- `calculate_asset_correlation` from `src/metrics/risk.rs`, over a
membership test standing for the `HashSet` of major-asset names. -/
def calculate_asset_correlation (contains : String → Bool) : ℚ :=
  let correlation_pairs : List (String × String × ℚ) :=
    [("BTC", "ETH", 0.7), ("ETH", "SOL", 0.6), ("BTC", "SOL", 0.5),
     ("ETH", "AVAX", 0.8), ("SOL", "AVAX", 0.7), ("BTC", "DOGE", 0.4),
     ("ETH", "MATIC", 0.6), ("LINK", "UNI", 0.5), ("AAVE", "COMP", 0.7)]
  let totals := correlation_pairs.foldl
    (fun (acc : ℚ × ℕ) p =>
      if contains p.1 && contains p.2.1 then (acc.1 + p.2.2, acc.2 + 1) else acc)
    (0, 0)
  if totals.2 = 0 then 0.5 else totals.1 / (totals.2 : ℚ)

/-- `calculate_cascade_risk` from `src/metrics/risk.rs`. -/
def calculate_cascade_risk (fills : List Fill) (meta : Meta) : ℚ :=
  if fills = [] then 0
  else
    let position_sizes := fills.foldl
      (fun (m : List (String × ℚ)) fill =>
        if cascade_major_contains meta fill.coin then
          if fill.side == "B" then mapAdd fill.coin fill.sz m
          else mapAdd fill.coin (-fill.sz) m
        else m)
      []
    let total_exposure := ((mapValues position_sizes).map (fun size => |size|)).sum
    if total_exposure = 0 then 0
    else
      let concentration_risk :=
        ((mapValues position_sizes).map
          (fun size => (|size| / total_exposure) * (|size| / total_exposure))).sum
      let correlation_factor := calculate_asset_correlation (cascade_major_contains meta)
      let liquidity_factor : ℚ := 0.8
      clamp01 (concentration_risk * correlation_factor * liquidity_factor)

/-- `calculate_position_concentration` from `src/metrics/risk.rs`. -/
def calculate_position_concentration (fills : List Fill) (meta : Meta) :
    List (String × ℚ) :=
  let tradeable_contains : String → Bool :=
    fun coin => meta.asset_universe.any (fun asset => asset.name == coin)
  let position_values := fills.foldl
    (fun (m : List (String × ℚ)) fill =>
      if tradeable_contains fill.coin then mapAdd fill.coin (fill.px * |fill.sz|) m else m)
    []
  let total_value := (mapValues position_values).sum
  if 0 < total_value then
    position_values.map (fun p => (p.1, p.2 / total_value))
  else []

/-- `detect_cross_exchange_manipulation` from `src/metrics/risk.rs`. -/
def detect_cross_exchange_manipulation (fills : List Fill) (meta : Meta) : ℚ :=
  if fills = [] then 0
  else
    let major_assets_count :=
      (meta.asset_universe.filter (fun asset => decide (10 ≤ asset.max_leverage))).length
    if 10 < major_assets_count then 0.15 else 0.08

/-! ### `src/metrics/streaming.rs` — streaming metrics engine -/

/-- `VpinBucketAccumulator` from `src/metrics/streaming.rs`. -/
structure VpinBucketAccumulator where
  current_volume : ℚ
  buy_volume : ℚ
  sell_volume : ℚ
  bucket_size : ℚ
deriving DecidableEq

/-- `OrderFlowAnalyzer` from `src/metrics/streaming.rs`. -/
structure OrderFlowAnalyzer where
  order_lifetimes : List ℕ
  cancellation_events : ℕ
  total_orders : ℕ
  fleeting_orders : ℕ
deriving DecidableEq

/-- `PhantomLiquidityTracker` from `src/metrics/streaming.rs`. -/
structure PhantomLiquidityTracker where
  layering_score : ℚ
  spoofing_events : ℕ
  total_depth_promises : ℚ
  realized_depth : ℚ
deriving DecidableEq

/-- `PhantomLiquidityMetrics` from `src/metrics/streaming.rs`. -/
structure PhantomLiquidityMetrics where
  fleeting_order_ratio : ℚ
  avg_order_lifetime_ms : ℚ
  layering_score : ℚ
  spoofing_events : ℕ
  cancellation_rate : ℚ
deriving DecidableEq

/-- `StreamingMetricsEngine` from `src/metrics/streaming.rs`; the
`active_orders` values (`std::time::Instant`) are `ℕ` instants. -/
structure StreamingMetricsEngine where
  trade_buffer : List Fill
  l2_snapshots : List (String × L2Snapshot)
  vpin_buckets : List ℚ
  bucket_accumulator : VpinBucketAccumulator
  order_flow_analyzer : OrderFlowAnalyzer
  phantom_liquidity_tracker : PhantomLiquidityTracker
  active_orders : List (ℕ × ℕ)
  total_volume_traded : ℚ
  volume_by_coin : List (String × ℚ)
deriving DecidableEq

/-- `StreamingMetricsEngine::new` from `src/metrics/streaming.rs`. -/
def StreamingMetricsEngine.new : StreamingMetricsEngine :=
  { trade_buffer := []
    l2_snapshots := []
    vpin_buckets := []
    bucket_accumulator := { current_volume := 0, buy_volume := 0, sell_volume := 0, bucket_size := 10000 }
    order_flow_analyzer := { order_lifetimes := [], cancellation_events := 0, total_orders := 0, fleeting_orders := 0 }
    phantom_liquidity_tracker := { layering_score := 0, spoofing_events := 0, total_depth_promises := 0, realized_depth := 0 }
    active_orders := []
    total_volume_traded := 0
    volume_by_coin := [] }

/-- `on_new_order` from `src/metrics/streaming.rs`; `now` is the
`std::time::Instant::now()` of the call. -/
def on_new_order (now : ℕ) (id : ℕ) (e : StreamingMetricsEngine) : StreamingMetricsEngine :=
  { e with active_orders := mapInsert id now e.active_orders }

/-- `on_cancel_or_fill` from `src/metrics/streaming.rs`; `now` is the
`std::time::Instant::now()` against which `t0.elapsed()` is measured. -/
def on_cancel_or_fill (now : ℕ) (id : ℕ) (is_cancel : Bool)
    (e : StreamingMetricsEngine) : StreamingMetricsEngine :=
  match mapLookup id e.active_orders with
  | none => e
  | some t0 =>
    let lifetime := now - t0
    let ofa := e.order_flow_analyzer
    let ofa := { ofa with
      total_orders := ofa.total_orders + 1
      order_lifetimes := ofa.order_lifetimes ++ [lifetime] }
    let ofa := if lifetime < 100 then { ofa with fleeting_orders := ofa.fleeting_orders + 1 } else ofa
    let ofa := if is_cancel then { ofa with cancellation_events := ofa.cancellation_events + 1 } else ofa
    let ofa :=
      if 10000 < ofa.order_lifetimes.length then { ofa with order_lifetimes := ofa.order_lifetimes.drop 1 }
      else ofa
    { e with active_orders := mapRemove id e.active_orders, order_flow_analyzer := ofa }

/-- `update_vpin_calculation` from `src/metrics/streaming.rs`. -/
def update_vpin_calculation (fill : Fill) (e : StreamingMetricsEngine) : StreamingMetricsEngine :=
  let volume := fill.px * |fill.sz|
  let acc := e.bucket_accumulator
  let acc :=
    if fill.side == "B" then { acc with buy_volume := acc.buy_volume + volume }
    else { acc with sell_volume := acc.sell_volume + volume }
  let acc := { acc with current_volume := acc.current_volume + volume }
  if acc.bucket_size ≤ acc.current_volume then
    let total_volume := acc.buy_volume + acc.sell_volume
    let e :=
      if 0 < total_volume then
        let imbalance := |acc.buy_volume - acc.sell_volume|
        let vpin := imbalance / total_volume
        let pushed := e.vpin_buckets ++ [vpin]
        let pushed := if 50 < pushed.length then pushed.drop 1 else pushed
        { e with vpin_buckets := pushed }
      else e
    { e with bucket_accumulator := { acc with current_volume := 0, buy_volume := 0, sell_volume := 0 } }
  else { e with bucket_accumulator := acc }

/-- `calculate_total_depth` from `src/metrics/streaming.rs`. -/
def calculate_total_depth (snapshot : L2Snapshot) : ℚ :=
  ((snapshot.bids.take 5).map (fun level => level.sz)).sum
    + ((snapshot.asks.take 5).map (fun level => level.sz)).sum

/-- `calculate_depth_change` from `src/metrics/streaming.rs`. -/
def calculate_depth_change (previous current : L2Snapshot) : ℚ :=
  let prev_depth := calculate_total_depth previous
  let curr_depth := calculate_total_depth current
  if prev_depth = 0 then 0
  else (curr_depth - prev_depth) / prev_depth

/-- `count_same_price_orders` from `src/metrics/streaming.rs`. -/
def count_same_price_orders (snapshot : L2Snapshot) : ℕ :=
  let price_counts := (snapshot.bids ++ snapshot.asks).foldl
    (fun (m : List (ℚ × ℕ)) level => mapAdd level.px level.n m) []
  ((mapValues price_counts).filter (fun count => 1 < count)).sum

/-- `detect_layering_patterns` from `src/metrics/streaming.rs` (the local
`layering_score` is an `f32`, modelled as `ℚ` like every float). -/
def detect_layering_patterns (previous current : L2Snapshot) : ℚ :=
  let layering_score : ℚ := 0
  let layering_score :=
    if previous.bids.length + 3 < current.bids.length
        ∨ previous.asks.length + 3 < current.asks.length then
      layering_score + 0.2
    else layering_score
  let layering_score :=
    if 5 < count_same_price_orders current then layering_score + 0.3 else layering_score
  clamp01 layering_score

/-- The spoof-counter increment
`(1.0 / total_orders as f64).min(1.0) as u32` of `detect_phantom_liquidity`
(`src/metrics/streaming.rs`, line 249).  With `total_orders = 0` the IEEE
quotient `1.0 / 0.0` is `+∞`, whose `min` with `1.0` is `1.0`, so the cast
yields 1; otherwise the `as u32` cast truncates the rational toward zero. -/
def spoof_increment (total_orders : ℕ) : ℕ :=
  if total_orders = 0 then 1
  else (⌊min (1 : ℚ) (1 / (total_orders : ℚ))⌋).toNat

/-- `detect_phantom_liquidity` from `src/metrics/streaming.rs`. -/
def detect_phantom_liquidity (previous current : L2Snapshot)
    (e : StreamingMetricsEngine) : StreamingMetricsEngine :=
  let depth_change := calculate_depth_change previous current
  let layering_score := detect_layering_patterns previous current
  let t := e.phantom_liquidity_tracker
  let t := { t with layering_score := t.layering_score * 0.8 + layering_score * 0.2 }
  let t :=
    if 0.05 < |depth_change| then
      { t with spoofing_events := t.spoofing_events + spoof_increment e.order_flow_analyzer.total_orders }
    else t
  let t := { t with
    total_depth_promises := t.total_depth_promises + calculate_total_depth current
    realized_depth := t.realized_depth + calculate_total_depth current * 0.8 }
  { e with phantom_liquidity_tracker := t }

/-- `process_l2_update` from `src/metrics/streaming.rs`. -/
def process_l2_update (snapshot : L2Snapshot) (e : StreamingMetricsEngine) :
    StreamingMetricsEngine :=
  let e :=
    match mapLookup snapshot.coin e.l2_snapshots with
    | some previous_snapshot => detect_phantom_liquidity previous_snapshot snapshot e
    | none => e
  { e with l2_snapshots := mapInsert snapshot.coin snapshot e.l2_snapshots }

/-- `is_likely_cancellation` from `src/metrics/streaming.rs`. -/
def is_likely_cancellation (fill : Fill) : Bool :=
  decide (fill.sz < 100) && decide (fill.fee = 0)

/-- `analyze_order_flow` from `src/metrics/streaming.rs`;
`estimated_lifetime` stands for the `rand::thread_rng` draw of
`estimate_order_lifetime`. -/
def analyze_order_flow (estimated_lifetime : ℕ) (fill : Fill)
    (e : StreamingMetricsEngine) : StreamingMetricsEngine :=
  let ofa := e.order_flow_analyzer
  let ofa := { ofa with
    total_orders := ofa.total_orders + 1
    order_lifetimes := ofa.order_lifetimes ++ [estimated_lifetime] }
  let ofa :=
    if estimated_lifetime < 100 then { ofa with fleeting_orders := ofa.fleeting_orders + 1 }
    else ofa
  let ofa :=
    if is_likely_cancellation fill then { ofa with cancellation_events := ofa.cancellation_events + 1 }
    else ofa
  let ofa :=
    if 1000 < ofa.order_lifetimes.length then { ofa with order_lifetimes := ofa.order_lifetimes.drop 1 }
    else ofa
  { e with order_flow_analyzer := ofa }

/-- `process_trade` from `src/metrics/streaming.rs`; `estimated_lifetime`
parameterizes the random draw inside `analyze_order_flow`. -/
def process_trade (estimated_lifetime : ℕ) (fill : Fill)
    (e : StreamingMetricsEngine) : StreamingMetricsEngine :=
  let trade_volume := fill.px * |fill.sz|
  let e := { e with
    total_volume_traded := e.total_volume_traded + trade_volume
    volume_by_coin := mapAdd fill.coin trade_volume e.volume_by_coin }
  let e := update_vpin_calculation fill e
  let e := analyze_order_flow estimated_lifetime fill e
  let e := { e with trade_buffer := e.trade_buffer ++ [fill] }
  if 5000 < e.trade_buffer.length then { e with trade_buffer := e.trade_buffer.drop 1 }
  else e

/-- `get_current_vpin` from `src/metrics/streaming.rs`. -/
def get_current_vpin (e : StreamingMetricsEngine) : ℚ :=
  if e.vpin_buckets = [] then 0
  else e.vpin_buckets.sum / (e.vpin_buckets.length : ℚ)

/-- `get_phantom_liquidity_metrics` from `src/metrics/streaming.rs`. -/
def get_phantom_liquidity_metrics (e : StreamingMetricsEngine) : PhantomLiquidityMetrics :=
  let fleeting_ratio :=
    if 0 < e.order_flow_analyzer.total_orders then
      (e.order_flow_analyzer.fleeting_orders : ℚ) / (e.order_flow_analyzer.total_orders : ℚ)
    else 0
  let cancellation_rate :=
    if 0 < e.order_flow_analyzer.total_orders then
      (e.order_flow_analyzer.cancellation_events : ℚ) / (e.order_flow_analyzer.total_orders : ℚ)
    else 0
  let avg_lifetime :=
    if e.order_flow_analyzer.order_lifetimes = [] then 0
    else ((e.order_flow_analyzer.order_lifetimes.map (fun l => (l : ℚ))).sum)
      / (e.order_flow_analyzer.order_lifetimes.length : ℚ)
  { fleeting_order_ratio := fleeting_ratio
    avg_order_lifetime_ms := avg_lifetime
    layering_score := e.phantom_liquidity_tracker.layering_score
    spoofing_events := e.phantom_liquidity_tracker.spoofing_events
    cancellation_rate := cancellation_rate }

/-- `calculate_depth_realisation_ratio` from `src/metrics/streaming.rs`. -/
def calculate_depth_realisation_ratio (e : StreamingMetricsEngine) : ℚ :=
  if e.phantom_liquidity_tracker.total_depth_promises = 0 then 0
  else clamp01 (e.phantom_liquidity_tracker.realized_depth
    / e.phantom_liquidity_tracker.total_depth_promises)

/-- `get_depth_realisation_ratio` from `src/metrics/streaming.rs`. -/
def get_depth_realisation_ratio (e : StreamingMetricsEngine) : ℚ :=
  calculate_depth_realisation_ratio e

/-- `get_volume_metrics` from `src/metrics/streaming.rs`. -/
def get_volume_metrics (e : StreamingMetricsEngine) : ℚ × List (String × ℚ) :=
  (e.total_volume_traded, e.volume_by_coin)

/-- `get_real_time_spreads` from `src/metrics/streaming.rs`. -/
def get_real_time_spreads (e : StreamingMetricsEngine) : List (String × ℚ) :=
  e.l2_snapshots.foldl
    (fun (spreads : List (String × ℚ)) entry =>
      match entry.2.bids.head?, entry.2.asks.head? with
      | some best_bid, some best_ask =>
        let mid := (best_bid.px + best_ask.px) / 2
        let spread := best_ask.px - best_bid.px
        if 0 < mid then mapInsert entry.1 (spread / mid * 10000) spreads else spreads
      | _, _ => spreads)
    []

/-! ### `src/metrics/mod.rs` — batch metric assembly -/

/-- `calculate_vault_metrics` from `src/metrics/mod.rs`. -/
def calculate_vault_metrics (vault_summary : VaultSummary) (user_state : UserState) :
    VaultMetrics :=
  let utilization_rate :=
    if 0 < vault_summary.tvl then user_state.total_margin_used / vault_summary.tvl else 0
  let deployed_liquidity := user_state.total_margin_used
  let idle_liquidity := vault_summary.tvl - deployed_liquidity
  { tvl := vault_summary.tvl
    equity := vault_summary.equity
    apr := vault_summary.apr
    utilization_rate := utilization_rate
    deployed_liquidity := deployed_liquidity
    idle_liquidity := idle_liquidity }

/-- `calculate_sharpe_ratio` from `src/metrics/mod.rs`; `sqrtF` stands for
`f64::sqrt`, uninterpreted in this embedding. -/
def calculate_sharpe_ratio (sqrtF : ℚ → ℚ) (returns : List ℚ) : ℚ :=
  if returns = [] then 0
  else
    let mean_return := returns.sum / (returns.length : ℚ)
    let variance :=
      ((returns.map (fun r => (r - mean_return) * (r - mean_return))).sum) / (returns.length : ℚ)
    let std_dev := sqrtF variance
    if std_dev = 0 then 0 else mean_return / std_dev

/-- `calculate_sortino_ratio` from `src/metrics/mod.rs`; `sqrtF` stands for
`f64::sqrt`, uninterpreted in this embedding. -/
def calculate_sortino_ratio (sqrtF : ℚ → ℚ) (returns : List ℚ) : ℚ :=
  if returns = [] then 0
  else
    let mean_return := returns.sum / (returns.length : ℚ)
    let downside_variance :=
      (((returns.filter (fun r => r < 0)).map (fun r => r * r)).sum) / (returns.length : ℚ)
    let downside_deviation := sqrtF downside_variance
    if downside_deviation = 0 then 0 else mean_return / downside_deviation

/-- `calculate_realized_spread` from `src/metrics/mod.rs`. -/
def calculate_realized_spread (fill : Fill) : ℚ :=
  fill.fee * 10000

/-- `calculate_adverse_selection_cost` from `src/metrics/mod.rs`.  Note the
divisor sums `fill.px * fill.sz` with the *signed* size (no `abs`). -/
def calculate_adverse_selection_cost (fills : List Fill) : ℚ :=
  if fills = [] then 0
  else
    let total_adverse :=
      ((fills.filter (fun fill => fill.closed_pnl < 0)).map (fun fill => |fill.closed_pnl|)).sum
    let total_volume := (fills.map (fun fill => fill.px * fill.sz)).sum
    if total_volume = 0 then 0 else total_adverse / total_volume

/-- `calculate_performance_metrics` from `src/metrics/mod.rs`; `sqrtF`
stands for `f64::sqrt`, uninterpreted in this embedding. -/
def calculate_performance_metrics (sqrtF : ℚ → ℚ) (fills : List Fill)
    (vault_summary : VaultSummary) : PerformanceMetrics :=
  let daily_pnl := (fills.map (fun fill => fill.closed_pnl)).sum
  let unrealized_pnl := vault_summary.equity - vault_summary.tvl
  let total_volume := (fills.map (fun fill => fill.px * |fill.sz|)).sum
  let returns := fills.map (fun fill => fill.closed_pnl)
  let sharpe_ratio := calculate_sharpe_ratio sqrtF returns
  let sortino_ratio := calculate_sortino_ratio sqrtF returns
  let realized_spread := fills.foldl
    (fun (m : List (String × ℚ)) fill => mapInsert fill.coin (calculate_realized_spread fill) m) []
  let adverse_selection_cost := calculate_adverse_selection_cost fills
  { daily_pnl := daily_pnl
    unrealized_pnl := unrealized_pnl
    total_volume := total_volume
    sharpe_ratio := sharpe_ratio
    sortino_ratio := sortino_ratio
    realized_spread := realized_spread
    adverse_selection_cost := adverse_selection_cost }

/-- `calculate_spread_bps` from `src/metrics/mod.rs`. -/
def calculate_spread_bps (bid ask : ℚ) : ℚ :=
  if bid = 0 ∨ ask = 0 then 0
  else
    let mid := (bid + ask) / 2
    let spread := ask - bid
    if mid = 0 then 0 else spread / mid * 10000

/-- `calculate_depth_at_bps` from `src/metrics/mod.rs`. -/
def calculate_depth_at_bps (snapshot : L2Snapshot) (bps : ℚ) : ℚ :=
  if snapshot.bids = [] ∨ snapshot.asks = [] then 0
  else
    let best_bid := (snapshot.bids.headI).px
    let best_ask := (snapshot.asks.headI).px
    let mid := (best_bid + best_ask) / 2
    let threshold := mid * (bps / 10000)
    let bid_depth :=
      ((snapshot.bids.takeWhile (fun level => mid - threshold ≤ level.px)).map
        (fun level => level.sz)).sum
    let ask_depth :=
      ((snapshot.asks.takeWhile (fun level => level.px ≤ mid + threshold)).map
        (fun level => level.sz)).sum
    bid_depth + ask_depth

/-- `calculate_order_book_imbalance` from `src/metrics/mod.rs`. -/
def calculate_order_book_imbalance (snapshot : L2Snapshot) : ℚ :=
  if snapshot.bids = [] ∨ snapshot.asks = [] then 0
  else
    let bid_volume := (snapshot.bids.headI).sz
    let ask_volume := (snapshot.asks.headI).sz
    let total_volume := bid_volume + ask_volume
    if total_volume = 0 then 0 else (bid_volume - ask_volume) / total_volume

/-- `OrderLifetimeStats` from `src/metrics/mod.rs`. -/
structure OrderLifetimeStats where
  avg_lifetime : ℚ
  cancel_rate : ℚ
  fleeting_ratio : ℚ
deriving DecidableEq

/-- `analyze_order_lifetimes` from `src/metrics/mod.rs` (hard-coded). -/
def analyze_order_lifetimes : OrderLifetimeStats :=
  { avg_lifetime := 164170, cancel_rate := 0.45, fleeting_ratio := 0.093 }

/-- `ManipulationScores` from `src/metrics/mod.rs`. -/
structure ManipulationScores where
  layering_score : ℚ
  spoofing_index : ℚ
  realization_rate : ℚ
deriving DecidableEq

/-- `detect_manipulation_patterns` from `src/metrics/mod.rs` (hard-coded). -/
def detect_manipulation_patterns : ManipulationScores :=
  { layering_score := 0.35, spoofing_index := 0.09, realization_rate := 0.512 }

/-- `calculate_fill_probabilities` from `src/metrics/mod.rs` (hard-coded). -/
def calculate_fill_probabilities : List (String × ℚ) :=
  [("1bps", 0.95), ("5bps", 0.85), ("10bps", 0.75), ("25bps", 0.60), ("50bps", 0.45)]

/-- `calculate_liquidity_metrics` from `src/metrics/mod.rs`. -/
def calculate_liquidity_metrics (l2_snapshots : List (String × L2Snapshot))
    (_fills : List Fill) (meta : Meta) : LiquidityMetrics :=
  let active_contains : String → Bool :=
    fun coin => meta.asset_universe.any
      (fun asset => !asset.only_isolated && decide (1 < asset.max_leverage) && asset.name == coin)
  let maps := l2_snapshots.foldl
    (fun (maps : List (String × ℚ) × List (String × ℚ) × List (String × ℚ)) entry =>
      if active_contains entry.1 then
        match entry.2.bids.head?, entry.2.asks.head? with
        | some best_bid, some best_ask =>
          (mapInsert entry.1 (calculate_spread_bps best_bid.px best_ask.px) maps.1,
           mapInsert entry.1 (calculate_depth_at_bps entry.2 50) maps.2.1,
           mapInsert entry.1 (calculate_order_book_imbalance entry.2) maps.2.2)
        | _, _ => maps
      else maps)
    ([], [], [])
  let order_lifetime_stats := analyze_order_lifetimes
  let manipulation_scores := detect_manipulation_patterns
  let fill_probabilities := calculate_fill_probabilities
  { bid_ask_spread_bps := maps.1
    depth_at_50bps := maps.2.1
    order_book_imbalance := maps.2.2
    avg_order_lifetime_ms := order_lifetime_stats.avg_lifetime
    cancel_rate := order_lifetime_stats.cancel_rate
    fleeting_order_ratio := order_lifetime_stats.fleeting_ratio
    layering_detection_score := manipulation_scores.layering_score
    spoofing_detection_index := manipulation_scores.spoofing_index
    liquidity_realization_rate := manipulation_scores.realization_rate
    fill_probability_by_distance := fill_probabilities }

/-- `calculate_risk_metrics` from `src/metrics/mod.rs`. -/
def calculate_risk_metrics (vault_summary : VaultSummary) (fills : List Fill)
    (liquidity_metrics : LiquidityMetrics) (meta : Meta) : RiskMetrics :=
  { vpin_score := calculate_vpin fills meta
    phantom_liquidity_index := calculate_phantom_liquidity_index liquidity_metrics
    liquidation_risk_score := calculate_liquidation_risk vault_summary
    cascade_risk_score := calculate_cascade_risk fills meta
    position_concentration := calculate_position_concentration fills meta
    max_drawdown := vault_summary.max_drawdown
    cross_exchange_manipulation_score := detect_cross_exchange_manipulation fills meta }

/-! ### `src/alert.rs` — alert evaluator -/

/-- `create_alert` from `src/alert.rs`, restricted to the deterministic
fields of `Alert`. -/
def create_alert (level : AlertLevel) (metric : String) (value threshold : ℚ) : Alert :=
  { level := level, metric := metric, value := value, threshold := threshold }

/-- The VPIN block of `check_alerts` (`src/alert.rs`, lines 8–24). -/
def vpin_alerts (metrics : GlobalMetrics) : List Alert :=
  if 0.7 < metrics.risk_metrics.vpin_score then
    [create_alert .Critical "VPIN" metrics.risk_metrics.vpin_score 0.7]
  else if 0.5 < metrics.risk_metrics.vpin_score then
    [create_alert .Warning "VPIN" metrics.risk_metrics.vpin_score 0.5]
  else []

/-- The phantom-liquidity block of `check_alerts` (`src/alert.rs`, lines 26–42). -/
def phantom_liquidity_alerts (metrics : GlobalMetrics) : List Alert :=
  if 0.6 < metrics.risk_metrics.phantom_liquidity_index then
    [create_alert .Critical "Phantom Liquidity" metrics.risk_metrics.phantom_liquidity_index 0.6]
  else if 0.4 < metrics.risk_metrics.phantom_liquidity_index then
    [create_alert .Warning "Phantom Liquidity" metrics.risk_metrics.phantom_liquidity_index 0.4]
  else []

/-- The liquidation-risk block of `check_alerts` (`src/alert.rs`, lines 44–60). -/
def liquidation_alerts (metrics : GlobalMetrics) : List Alert :=
  if 0.85 < metrics.risk_metrics.liquidation_risk_score then
    [create_alert .Critical "Liquidation Risk" metrics.risk_metrics.liquidation_risk_score 0.85]
  else if 0.7 < metrics.risk_metrics.liquidation_risk_score then
    [create_alert .Warning "Liquidation Risk" metrics.risk_metrics.liquidation_risk_score 0.7]
  else []

/-- The max-drawdown block of `check_alerts` (`src/alert.rs`, lines 62–78). -/
def drawdown_alerts (metrics : GlobalMetrics) : List Alert :=
  if 0.25 < metrics.risk_metrics.max_drawdown then
    [create_alert .Critical "Max Drawdown" metrics.risk_metrics.max_drawdown 0.25]
  else if 0.15 < metrics.risk_metrics.max_drawdown then
    [create_alert .Warning "Max Drawdown" metrics.risk_metrics.max_drawdown 0.15]
  else []

/-- The utilization block of `check_alerts` (`src/alert.rs`, lines 80–88). -/
def utilization_alerts (metrics : GlobalMetrics) : List Alert :=
  if 0.9 < metrics.vault_metrics.utilization_rate then
    [create_alert .Warning "Utilization" metrics.vault_metrics.utilization_rate 0.9]
  else []

/-- The `max_concentration` fold of `check_alerts` (`src/alert.rs`, lines 90–92). -/
def max_concentration (metrics : GlobalMetrics) : ℚ :=
  (mapValues metrics.risk_metrics.position_concentration).foldl max 0

/-- The position-concentration block of `check_alerts` (`src/alert.rs`, lines 94–102). -/
def concentration_alerts (metrics : GlobalMetrics) : List Alert :=
  if 0.15 < max_concentration metrics then
    [create_alert .Warning "Position Concentration" (max_concentration metrics) 0.15]
  else []

/-- The cancel-rate block of `check_alerts` (`src/alert.rs`, lines 104–112). -/
def cancel_rate_alerts (metrics : GlobalMetrics) : List Alert :=
  if 0.5 < metrics.liquidity_metrics.cancel_rate then
    [create_alert .Warning "Cancel Rate" metrics.liquidity_metrics.cancel_rate 0.5]
  else []

/-- The fleeting-order block of `check_alerts` (`src/alert.rs`, lines 114–122). -/
def fleeting_alerts (metrics : GlobalMetrics) : List Alert :=
  if 0.2 < metrics.liquidity_metrics.fleeting_order_ratio then
    [create_alert .Warning "Fleeting Orders" metrics.liquidity_metrics.fleeting_order_ratio 0.2]
  else []

/-- The Sharpe block of `check_alerts` (`src/alert.rs`, lines 124–132). -/
def sharpe_alerts (metrics : GlobalMetrics) : List Alert :=
  if metrics.performance_metrics.sharpe_ratio < 1 then
    [create_alert .Info "Sharpe Ratio" metrics.performance_metrics.sharpe_ratio 1]
  else []

/-- `check_alerts` from `src/alert.rs`: the alert pushes happen in source
order, so the result is the concatenation of the per-metric blocks. -/
def check_alerts (metrics : GlobalMetrics) : List Alert :=
  vpin_alerts metrics ++ phantom_liquidity_alerts metrics ++ liquidation_alerts metrics
    ++ drawdown_alerts metrics ++ utilization_alerts metrics ++ concentration_alerts metrics
    ++ cancel_rate_alerts metrics ++ fleeting_alerts metrics ++ sharpe_alerts metrics

/-! ### `src/main.rs` — `update_metrics` snapshot merge / overlay -/

/-- The live-path Phantom Liquidity Index formula of `update_metrics`
(`src/main.rs`, lines 796–804):
`((1 − realizationRate) + tanh(spoofEvents/50) + layeringScore
  + 0.5·fleetingRatio + 0.5·cancellationRate) / 4`,
with `spoof_penalty` standing for the already-evaluated
`(spoofing_events as f64 / 50.0).tanh()`. -/
def live_phantom_liquidity_index (liquidity_realization_rate spoof_penalty
    layering_score fleeting_order_ratio cancellation_rate : ℚ) : ℚ :=
  let depth_penalty := 1 - liquidity_realization_rate
  let layering_penalty := layering_score
  let flow_penalty := 0.5 * fleeting_order_ratio + 0.5 * cancellation_rate
  (depth_penalty + spoof_penalty + layering_penalty + flow_penalty) / 4

/-- `update_metrics` from `src/main.rs` after the five provider fetches
succeeded: batch metric assembly followed by the optional streaming
overlay.  `sqrtF` and `tanhF` stand for `f64::sqrt` and `f64::tanh`
(machine doubles, hence `ℚ → ℚ`), `now` for `chrono::Utc::now()`. -/
def update_metrics (sqrtF tanhF : ℚ → ℚ) (now : ℕ)
    (vault_summary : VaultSummary) (user_state : UserState) (meta : Meta)
    (recent_fills : List Fill) (l2_snapshots : List (String × L2Snapshot))
    (streaming_metrics : Option StreamingMetricsEngine) : GlobalMetrics :=
  let vault_metrics := calculate_vault_metrics vault_summary user_state
  let performance_metrics := calculate_performance_metrics sqrtF recent_fills vault_summary
  let liquidity_metrics := calculate_liquidity_metrics l2_snapshots recent_fills meta
  let risk_metrics := calculate_risk_metrics vault_summary recent_fills liquidity_metrics meta
  let global_metrics : GlobalMetrics :=
    { vault_metrics := vault_metrics
      performance_metrics := performance_metrics
      liquidity_metrics := liquidity_metrics
      risk_metrics := risk_metrics
      last_update := some now }
  match streaming_metrics with
  | none => global_metrics
  | some engine =>
    let streaming_vpin := get_current_vpin engine
    let phantom_metrics := get_phantom_liquidity_metrics engine
    let real_time_spreads := get_real_time_spreads engine
    let streaming_volume := (get_volume_metrics engine).1
    let liquidity_realization_rate := get_depth_realisation_ratio engine
    let global_metrics := { global_metrics with
      risk_metrics := { global_metrics.risk_metrics with
        vpin_score := streaming_vpin
        phantom_liquidity_index := phantom_metrics.fleeting_order_ratio } }
    let global_metrics := { global_metrics with
      liquidity_metrics := { global_metrics.liquidity_metrics with
        fleeting_order_ratio := phantom_metrics.fleeting_order_ratio
        avg_order_lifetime_ms := phantom_metrics.avg_order_lifetime_ms
        layering_detection_score := phantom_metrics.layering_score
        spoofing_detection_index := (phantom_metrics.spoofing_events : ℚ)
        cancel_rate := phantom_metrics.cancellation_rate
        liquidity_realization_rate := liquidity_realization_rate } }
    let global_metrics := { global_metrics with
      risk_metrics := { global_metrics.risk_metrics with
        phantom_liquidity_index :=
          live_phantom_liquidity_index
            global_metrics.liquidity_metrics.liquidity_realization_rate
            (tanhF ((phantom_metrics.spoofing_events : ℚ) / 50))
            phantom_metrics.layering_score
            phantom_metrics.fleeting_order_ratio
            phantom_metrics.cancellation_rate } }
    let global_metrics := { global_metrics with
      liquidity_metrics := { global_metrics.liquidity_metrics with
        bid_ask_spread_bps := real_time_spreads.foldl
          (fun (m : List (String × ℚ)) (entry : String × ℚ) => mapInsert entry.1 entry.2 m)
          global_metrics.liquidity_metrics.bid_ask_spread_bps } }
    let global_metrics := { global_metrics with
      performance_metrics := { global_metrics.performance_metrics with
        total_volume := global_metrics.performance_metrics.total_volume + streaming_volume } }
    { global_metrics with
      vault_metrics := { global_metrics.vault_metrics with
        tvl := vault_summary.tvl
        equity := vault_summary.equity
        apr := vault_summary.apr
        deployed_liquidity := vault_summary.deployed_liquidity
        idle_liquidity := vault_summary.idle_liquidity
        -- `idle_liquidity / tvl` is a `rust_decimal` division; the model's
        -- rational division (0 when tvl = 0) stands in for it.
        utilization_rate := 1 - vault_summary.idle_liquidity / vault_summary.tvl } }

/-! ### Supporting lemmas -/

/-- A value at least 1 clamps to exactly 1. -/
theorem clamp01_of_one_le {x : ℚ} (h : 1 ≤ x) : clamp01 x = 1 := by
  unfold clamp01
  rw [max_eq_left (le_trans zero_le_one h), min_eq_right h]

/-- The clamp always lands in the unit interval. -/
theorem clamp01_mem {x : ℚ} : 0 ≤ clamp01 x ∧ clamp01 x ≤ 1 :=
  ⟨le_min (le_max_right x 0) zero_le_one, min_le_right _ 1⟩

/-! ### Claim theorems -/

/-- C1: with a streaming engine attached, the published
`GlobalMetrics.risk_metrics.vpin_score` is the engine's current VPIN view,
for every batch input (hence regardless of what `calculate_vpin` computed
from the historical fills of the cycle). -/
theorem c1_streaming_vpin_overrides_batch (sqrtF tanhF : ℚ → ℚ) (now : ℕ)
    (vault_summary : VaultSummary) (user_state : UserState) (meta : Meta)
    (recent_fills : List Fill) (l2_snapshots : List (String × L2Snapshot))
    (engine : StreamingMetricsEngine) :
    (update_metrics sqrtF tanhF now vault_summary user_state meta recent_fills
        l2_snapshots (some engine)).risk_metrics.vpin_score
      = get_current_vpin engine := rfl

/-- C5: the liquidation risk is
`clamp((1 − equity/tvl) + 0.5·clamp(maxDrawdown,0,1), 0, 1)`, and a zero
TVL yields exactly 1 regardless of equity and drawdown. -/
theorem c5_liquidation_risk_formula (vault_summary : VaultSummary) :
    calculate_liquidation_risk vault_summary
        = clamp01 ((1 - vault_summary.equity / vault_summary.tvl)
            + clamp01 vault_summary.max_drawdown * 0.5)
      ∧ (vault_summary.tvl = 0 → calculate_liquidation_risk vault_summary = 1) := by
  constructor
  · by_cases h : vault_summary.tvl = 0
    · rw [calculate_liquidation_risk, if_pos h, h, div_zero]
      have hc : 0 ≤ clamp01 vault_summary.max_drawdown := clamp01_mem.1
      rw [clamp01_of_one_le (by linarith)]
    · rw [calculate_liquidation_risk, if_neg h]
  · intro h
    rw [calculate_liquidation_risk, if_pos h]

/-- C5 witness: a vault with zero TVL, positive equity and a large drawdown
still reports liquidation risk exactly 1. -/
theorem c5_liquidation_risk_witness :
    calculate_liquidation_risk
        { vault_address := "0xv", tvl := 0, equity := 250, apr := 0.1,
          all_time_pnl := 3, max_drawdown := 2, num_depositors := 4,
          portfolio_value := 9, deployed_liquidity := 5, idle_liquidity := 1 } = 1 :=
  (c5_liquidation_risk_formula _).2 rfl

/-- C9: a `Filled`/`Cancelled` event whose order id is absent from the
open-order table leaves the whole engine state unchanged. -/
theorem c9_unknown_order_event_ignored (now id : ℕ) (is_cancel : Bool)
    (e : StreamingMetricsEngine) (h : mapLookup id e.active_orders = none) :
    on_cancel_or_fill now id is_cancel e = e := by
  unfold on_cancel_or_fill
  rw [h]

/-- C9 witness: an engine holding open order 3 ignores a cancel for the
unknown order id 7 entirely. -/
theorem c9_unknown_order_event_ignored_witness :
    mapLookup 7 (on_new_order 5 3 StreamingMetricsEngine.new).active_orders = none
      ∧ on_cancel_or_fill 123 7 true (on_new_order 5 3 StreamingMetricsEngine.new)
          = on_new_order 5 3 StreamingMetricsEngine.new :=
  ⟨by decide, c9_unknown_order_event_ignored 123 7 true _ (by decide)⟩

/-- C10: with an empty fill-probability map the mean fill probability is
taken to be 0, so the `(1 − mean fill probability)` term contributes its
full weight 0.20 to the batch Phantom Liquidity Index. -/
theorem c10_empty_fill_probability_full_weight (lm : LiquidityMetrics)
    (h : lm.fill_probability_by_distance = []) :
    calculate_phantom_liquidity_index lm
      = clamp01 (lm.fleeting_order_ratio * 0.25 + (1 - 0) * 0.20
          + lm.layering_detection_score * 0.20 + lm.spoofing_detection_index * 0.20
          + (1 - lm.liquidity_realization_rate) * 0.15) := by
  rw [calculate_phantom_liquidity_index, h]
  norm_num

/-- C10 witness: a concrete liquidity snapshot with an empty
fill-probability map and all other components zero scores exactly the
0.20 + 0.15 + 0.20·0 weights of the remaining terms. -/
theorem c10_empty_fill_probability_witness :
    calculate_phantom_liquidity_index
        { bid_ask_spread_bps := [], depth_at_50bps := [], order_book_imbalance := [],
          avg_order_lifetime_ms := 0, cancel_rate := 0, fleeting_order_ratio := 0,
          layering_detection_score := 0, spoofing_detection_index := 0,
          liquidity_realization_rate := 0, fill_probability_by_distance := [] }
      = clamp01 ((0 : ℚ) * 0.25 + (1 - 0) * 0.20 + 0 * 0.20 + 0 * 0.20 + (1 - 0) * 0.15) :=
  c10_empty_fill_probability_full_weight _ rfl

/-- Universe of eleven high-leverage assets for the C8 counterexample. -/
def meta_c8 : Meta :=
  { asset_universe := List.replicate 11 { name := "HL", sz_decimals := 2, max_leverage := 20, only_isolated := false } }

/-- C8 counterexample: with an empty fill list and more than 10
high-leverage assets in the universe, the manipulation score is 0, not the
0.15 the claim requires for every input. -/
theorem c8_counterexample :
    10 < (meta_c8.asset_universe.filter (fun asset => decide (10 ≤ asset.max_leverage))).length
      ∧ detect_cross_exchange_manipulation [] meta_c8 = 0
      ∧ detect_cross_exchange_manipulation [] meta_c8 ≠ 0.15 := by
  refine ⟨by decide, ?_, ?_⟩ <;> norm_num [detect_cross_exchange_manipulation]

/-- C8 (amended): for a non-empty fill list the manipulation score is 0.15
when more than 10 universe assets have leverage ceiling ≥ 10 and 0.08
otherwise; an empty fill list short-circuits to 0. -/
theorem c8_cross_exchange_manipulation (fills : List Fill) (meta : Meta) :
    (fills = [] → detect_cross_exchange_manipulation fills meta = 0)
      ∧ (fills ≠ [] →
          detect_cross_exchange_manipulation fills meta
            = if 10 < (meta.asset_universe.filter
                  (fun asset => decide (10 ≤ asset.max_leverage))).length
              then 0.15 else 0.08) := by
  constructor
  · intro h
    rw [detect_cross_exchange_manipulation, if_pos h]
  · intro h
    rw [detect_cross_exchange_manipulation, if_neg h]

/-- C8 witness: one fill against the eleven-asset high-leverage universe
scores 0.15. -/
theorem c8_cross_exchange_manipulation_witness :
    detect_cross_exchange_manipulation
        [{ coin := "HL", px := 10, sz := 1, side := "B", time := 0, start_position := 0,
           dir := "Open Long", closed_pnl := 0, hash := "0xc8", oid := 1, crossed := true,
           fee := 0 }] meta_c8
      = if 10 < (meta_c8.asset_universe.filter
            (fun asset => decide (10 ≤ asset.max_leverage))).length
        then 0.15 else 0.08 :=
  (c8_cross_exchange_manipulation _ meta_c8).2 (by decide)

/-- Single sell fill with signed size −1 for the C7 counterexample. -/
def fill_c7 : Fill :=
  { coin := "BTC", px := 10, sz := -1, side := "A", time := 0, start_position := 1,
    dir := "Close Long", closed_pnl := -5, hash := "0xc7", oid := 2, crossed := true,
    fee := 0 }

/-- C7 counterexample: on a single sell fill with signed size −1 the code
returns −1/2 (it divides by `Σ price·size` with the signed size), while the
claim's formula `Σ|negative P&L| / Σ price·|size|` gives +1/2. -/
theorem c7_counterexample :
    calculate_adverse_selection_cost [fill_c7] = -(1/2)
      ∧ (([fill_c7].filter (fun fill => fill.closed_pnl < 0)).map
            (fun fill => |fill.closed_pnl|)).sum
          / (([fill_c7].map (fun fill => fill.px * |fill.sz|)).sum) = 1/2 := by
  constructor <;> norm_num [calculate_adverse_selection_cost, fill_c7]

/-- C7 (amended): the adverse-selection divisor is the *signed* notional sum
`Σ price·size`; the result is 0 on an empty fill list or when that signed
sum is 0, and the claim as stated holds whenever every size is
non-negative. -/
theorem c7_adverse_selection_cost (fills : List Fill) :
    (fills = [] → calculate_adverse_selection_cost fills = 0)
      ∧ ((fills.map (fun fill => fill.px * fill.sz)).sum = 0 →
          calculate_adverse_selection_cost fills = 0)
      ∧ (fills ≠ [] → (fills.map (fun fill => fill.px * fill.sz)).sum ≠ 0 →
          calculate_adverse_selection_cost fills
            = ((fills.filter (fun fill => fill.closed_pnl < 0)).map
                  (fun fill => |fill.closed_pnl|)).sum
              / (fills.map (fun fill => fill.px * fill.sz)).sum)
      ∧ ((∀ fill ∈ fills, 0 ≤ fill.sz) →
          calculate_adverse_selection_cost fills
            = if fills = [] ∨ (fills.map (fun fill => fill.px * |fill.sz|)).sum = 0 then 0
              else ((fills.filter (fun fill => fill.closed_pnl < 0)).map
                      (fun fill => |fill.closed_pnl|)).sum
                / (fills.map (fun fill => fill.px * |fill.sz|)).sum) := by
  refine ⟨?_, ?_, ?_, ?_⟩
  · intro h
    simp [calculate_adverse_selection_cost, h]
  · intro h
    by_cases h1 : fills = []
    · simp [calculate_adverse_selection_cost, h1]
    · simp [calculate_adverse_selection_cost, h1, h]
  · intro h1 h2
    simp only [calculate_adverse_selection_cost]
    rw [if_neg h1, if_neg h2]
  · intro h
    have hmap : fills.map (fun fill => fill.px * fill.sz)
        = fills.map (fun fill => fill.px * |fill.sz|) :=
      List.map_congr_left fun fill hf => by rw [abs_of_nonneg (h fill hf)]
    by_cases h1 : fills = []
    · simp [calculate_adverse_selection_cost, h1]
    · by_cases h2 : (fills.map (fun fill => fill.px * |fill.sz|)).sum = 0
      · simp [calculate_adverse_selection_cost, h1, hmap, h2]
      · simp [calculate_adverse_selection_cost, h1, hmap, h2]

/-- Single buy fill with positive size and a losing closed P&L for the C7
witness. -/
def fill_c7w : Fill :=
  { coin := "BTC", px := 10, sz := 2, side := "B", time := 0, start_position := 0,
    dir := "Close Short", closed_pnl := -3, hash := "0xc7w", oid := 3, crossed := true,
    fee := 1 }

/-- C7 witness: a non-empty all-buy fill list with one losing trade has
adverse-selection cost `|−3| / (10·2) = 3/20` under the signed-sum rule. -/
theorem c7_adverse_selection_cost_witness :
    [fill_c7w] ≠ [] ∧ (([fill_c7w].map (fun fill => fill.px * fill.sz)).sum ≠ 0)
      ∧ calculate_adverse_selection_cost [fill_c7w]
          = (([fill_c7w].filter (fun fill => fill.closed_pnl < 0)).map
                (fun fill => |fill.closed_pnl|)).sum
            / ([fill_c7w].map (fun fill => fill.px * fill.sz)).sum :=
  ⟨by decide, by norm_num [fill_c7w],
    (c7_adverse_selection_cost _).2.2.1 (by decide) (by norm_num [fill_c7w])⟩

/-- The `as u32` truncation collapses the damped spoof increment to an
integer: 1 while at most one order has been tallied, 0 afterwards. -/
theorem spoof_increment_eq (n : ℕ) : spoof_increment n = if n ≤ 1 then 1 else 0 := by
  unfold spoof_increment
  match n with
  | 0 => simp
  | 1 => norm_num
  | (m + 2) =>
    have hpos : (0 : ℚ) < ((m + 2 : ℕ) : ℚ) := by positivity
    have hlt : (1 : ℚ) / ((m + 2 : ℕ) : ℚ) < 1 := by
      rw [div_lt_one hpos]
      push_cast
      linarith
    have hnn : (0 : ℚ) ≤ 1 / ((m + 2 : ℕ) : ℚ) := by positivity
    rw [if_neg (by omega), if_neg (by omega), min_eq_right hlt.le,
      Int.floor_eq_zero_iff.mpr ⟨hnn, hlt⟩]
    rfl

/-- Previous order book for the C6 inputs: top-5 depth 100. -/
def snap_c6_prev : L2Snapshot :=
  { coin := "BTC", time := 0,
    bids := [{ px := 100, sz := 50, n := 1 }], asks := [{ px := 101, sz := 50, n := 1 }] }

/-- Updated order book for the C6 inputs: top-5 depth 200, a +100% change. -/
def snap_c6_cur : L2Snapshot :=
  { coin := "BTC", time := 1,
    bids := [{ px := 100, sz := 100, n := 1 }], asks := [{ px := 101, sz := 100, n := 1 }] }

/-- Engine state for the C6 counterexample: previous snapshot retained for
"BTC" and an order-flow tally of 2 total orders. -/
def engine_c6 : StreamingMetricsEngine :=
  { StreamingMetricsEngine.new with
    l2_snapshots := [("BTC", snap_c6_prev)]
    order_flow_analyzer := { order_lifetimes := [], cancellation_events := 0,
                             total_orders := 2, fleeting_orders := 0 } }

/-- C6 counterexample: a retained snapshot, a depth change of +100% and a
tally of 2 total orders increase the integer spoof counter by 0, not by
`min(1, 1/2) = 1/2` as the claim demands. -/
theorem c6_counterexample :
    mapLookup snap_c6_cur.coin engine_c6.l2_snapshots = some snap_c6_prev
      ∧ 0.05 < |calculate_depth_change snap_c6_prev snap_c6_cur|
      ∧ ((process_l2_update snap_c6_cur engine_c6).phantom_liquidity_tracker.spoofing_events : ℚ)
          ≠ (engine_c6.phantom_liquidity_tracker.spoofing_events : ℚ)
            + min 1 (1 / (engine_c6.order_flow_analyzer.total_orders : ℚ)) := by
  have hc : (0.05 : ℚ) < |calculate_depth_change snap_c6_prev snap_c6_cur| := by
    norm_num [calculate_depth_change, calculate_total_depth, snap_c6_prev, snap_c6_cur]
  refine ⟨rfl, hc, ?_⟩
  have hs : (process_l2_update snap_c6_cur engine_c6).phantom_liquidity_tracker.spoofing_events
      = engine_c6.phantom_liquidity_tracker.spoofing_events + spoof_increment 2 := by
    simp only [process_l2_update, show mapLookup snap_c6_cur.coin engine_c6.l2_snapshots
      = some snap_c6_prev from rfl]
    simp only [detect_phantom_liquidity]
    rw [if_pos hc]
    rfl
  rw [hs, spoof_increment_eq]
  norm_num [engine_c6, StreamingMetricsEngine.new, min_def]

/-- C6 (amended): when a previous snapshot exists for the coin and the
absolute top-5 depth-change ratio exceeds 0.05, the spoof counter grows by
the `u32` truncation of `min(1, 1/totalOrders)`: 1 if at most one order has
been tallied so far, 0 otherwise. -/
theorem c6_spoof_counter_truncated (current previous : L2Snapshot)
    (e : StreamingMetricsEngine)
    (h1 : mapLookup current.coin e.l2_snapshots = some previous)
    (h2 : 0.05 < |calculate_depth_change previous current|) :
    (process_l2_update current e).phantom_liquidity_tracker.spoofing_events
      = e.phantom_liquidity_tracker.spoofing_events
        + (if e.order_flow_analyzer.total_orders ≤ 1 then 1 else 0) := by
  simp only [process_l2_update, h1]
  simp only [detect_phantom_liquidity]
  rw [if_pos h2]
  simp [spoof_increment_eq]

/-- Engine state for the C6 witness: previous snapshot retained and a fresh
(zero) order-flow tally. -/
def engine_c6w : StreamingMetricsEngine :=
  { StreamingMetricsEngine.new with l2_snapshots := [("BTC", snap_c6_prev)] }

/-- C6 witness: with zero tallied orders the same +100% depth change grows
the spoof counter by exactly 1. -/
theorem c6_spoof_counter_truncated_witness :
    mapLookup snap_c6_cur.coin engine_c6w.l2_snapshots = some snap_c6_prev
      ∧ 0.05 < |calculate_depth_change snap_c6_prev snap_c6_cur|
      ∧ (process_l2_update snap_c6_cur engine_c6w).phantom_liquidity_tracker.spoofing_events
          = engine_c6w.phantom_liquidity_tracker.spoofing_events
            + (if engine_c6w.order_flow_analyzer.total_orders ≤ 1 then 1 else 0) :=
  ⟨rfl,
    by norm_num [calculate_depth_change, calculate_total_depth, snap_c6_prev, snap_c6_cur],
    c6_spoof_counter_truncated snap_c6_cur snap_c6_prev engine_c6w rfl
      (by norm_num [calculate_depth_change, calculate_total_depth, snap_c6_prev, snap_c6_cur])⟩

/-- C4 counterexample: at spoof count 0 the tanh term of the live formula
is `tanh 0 = 0`, and with an out-of-range layering score of 5 (all other
inputs in range) the live-overlay Phantom Liquidity Index evaluates to
5/4, outside [0,1] — the live formula carries no clamp. -/
theorem c4_counterexample :
    Real.tanh ((0 : ℝ) / 50) = 0 ∧ 1 < live_phantom_liquidity_index 1 0 5 0 0 := by
  constructor
  · norm_num [Real.tanh_zero]
  · norm_num [live_phantom_liquidity_index]

/-- C4 (amended): the batch Phantom Liquidity Index is clamped to [0,1] for
every input; the live-overlay formula has no clamp, but its tanh term lies
in [0,1] for every non-negative argument and the whole formula stays in
[0,1] whenever its rate/score inputs lie in their natural range [0,1]. -/
theorem c4_phantom_liquidity_bounds :
    (∀ lm : LiquidityMetrics,
        0 ≤ calculate_phantom_liquidity_index lm ∧ calculate_phantom_liquidity_index lm ≤ 1)
      ∧ (∀ x : ℝ, 0 ≤ x → 0 ≤ Real.tanh x ∧ Real.tanh x ≤ 1)
      ∧ (∀ rr sp ls fr cr : ℚ,
          0 ≤ rr → rr ≤ 1 → 0 ≤ sp → sp ≤ 1 → 0 ≤ ls → ls ≤ 1 →
          0 ≤ fr → fr ≤ 1 → 0 ≤ cr → cr ≤ 1 →
          0 ≤ live_phantom_liquidity_index rr sp ls fr cr
            ∧ live_phantom_liquidity_index rr sp ls fr cr ≤ 1) := by
  refine ⟨fun lm => ⟨clamp01_mem.1, clamp01_mem.2⟩, ?_, ?_⟩
  · intro x hx
    rw [Real.tanh_eq_sinh_div_cosh]
    exact ⟨div_nonneg (Real.sinh_nonneg_iff.mpr hx) (Real.cosh_pos x).le,
      ((div_lt_one (Real.cosh_pos x)).mpr (Real.sinh_lt_cosh x)).le⟩
  · intro rr sp ls fr cr h1 h2 h3 h4 h5 h6 h7 h8 h9 h10
    simp only [live_phantom_liquidity_index]
    constructor <;> nlinarith

/-- C4 witness: with all live inputs at their extreme in-range values
(realization 1, tanh term 0, layering 1, fleeting 1, cancellation 0) the
live formula stays inside [0,1]. -/
theorem c4_phantom_liquidity_bounds_witness :
    0 ≤ live_phantom_liquidity_index 1 0 1 1 0
      ∧ live_phantom_liquidity_index 1 0 1 1 0 ≤ 1 :=
  c4_phantom_liquidity_bounds.2.2 1 0 1 1 0 (by norm_num) (by norm_num) (by norm_num)
    (by norm_num) (by norm_num) (by norm_num) (by norm_num) (by norm_num)
    (by norm_num) (by norm_num)

/-- Every alert of the VPIN block is tagged "VPIN". -/
theorem mem_vpin_alerts {gm : GlobalMetrics} {a : Alert} (h : a ∈ vpin_alerts gm) :
    a.metric = "VPIN" := by
  unfold vpin_alerts at h
  split_ifs at h <;> simp_all [create_alert]

/-- Every alert of the phantom-liquidity block is tagged "Phantom Liquidity". -/
theorem mem_phantom_liquidity_alerts {gm : GlobalMetrics} {a : Alert}
    (h : a ∈ phantom_liquidity_alerts gm) : a.metric = "Phantom Liquidity" := by
  unfold phantom_liquidity_alerts at h
  split_ifs at h <;> simp_all [create_alert]

/-- Every alert of the liquidation block is tagged "Liquidation Risk". -/
theorem mem_liquidation_alerts {gm : GlobalMetrics} {a : Alert}
    (h : a ∈ liquidation_alerts gm) : a.metric = "Liquidation Risk" := by
  unfold liquidation_alerts at h
  split_ifs at h <;> simp_all [create_alert]

/-- Every alert of the drawdown block is tagged "Max Drawdown". -/
theorem mem_drawdown_alerts {gm : GlobalMetrics} {a : Alert}
    (h : a ∈ drawdown_alerts gm) : a.metric = "Max Drawdown" := by
  unfold drawdown_alerts at h
  split_ifs at h <;> simp_all [create_alert]

/-- Every alert of the utilization block is tagged "Utilization". -/
theorem mem_utilization_alerts {gm : GlobalMetrics} {a : Alert}
    (h : a ∈ utilization_alerts gm) : a.metric = "Utilization" := by
  unfold utilization_alerts at h
  split_ifs at h <;> simp_all [create_alert]

/-- Every alert of the concentration block is tagged "Position Concentration". -/
theorem mem_concentration_alerts {gm : GlobalMetrics} {a : Alert}
    (h : a ∈ concentration_alerts gm) : a.metric = "Position Concentration" := by
  unfold concentration_alerts at h
  split_ifs at h <;> simp_all [create_alert]

/-- Every alert of the cancel-rate block is tagged "Cancel Rate". -/
theorem mem_cancel_rate_alerts {gm : GlobalMetrics} {a : Alert}
    (h : a ∈ cancel_rate_alerts gm) : a.metric = "Cancel Rate" := by
  unfold cancel_rate_alerts at h
  split_ifs at h <;> simp_all [create_alert]

/-- Every alert of the fleeting-order block is tagged "Fleeting Orders". -/
theorem mem_fleeting_alerts {gm : GlobalMetrics} {a : Alert}
    (h : a ∈ fleeting_alerts gm) : a.metric = "Fleeting Orders" := by
  unfold fleeting_alerts at h
  split_ifs at h <;> simp_all [create_alert]

/-- Every alert of the Sharpe block is tagged "Sharpe Ratio". -/
theorem mem_sharpe_alerts {gm : GlobalMetrics} {a : Alert}
    (h : a ∈ sharpe_alerts gm) : a.metric = "Sharpe Ratio" := by
  unfold sharpe_alerts at h
  split_ifs at h <;> simp_all [create_alert]

/-- Filtering a single-tag block by a metric name keeps everything or nothing. -/
theorem alerts_filter_block {l : List Alert} {s : String}
    (hl : ∀ a ∈ l, a.metric = s) (t : String) :
    l.filter (fun a => a.metric = t) = if s = t then l else [] := by
  split_ifs with h
  · subst h
    exact List.filter_eq_self.mpr (fun a ha => by simp [hl a ha])
  · rw [List.filter_eq_nil_iff]
    intro a ha
    simp [hl a ha, h]

/-- Filtering `check_alerts` by a metric name isolates the per-metric blocks. -/
theorem check_alerts_filter (gm : GlobalMetrics) (t : String) :
    (check_alerts gm).filter (fun a => a.metric = t)
      = (if "VPIN" = t then vpin_alerts gm else [])
        ++ (if "Phantom Liquidity" = t then phantom_liquidity_alerts gm else [])
        ++ (if "Liquidation Risk" = t then liquidation_alerts gm else [])
        ++ (if "Max Drawdown" = t then drawdown_alerts gm else [])
        ++ (if "Utilization" = t then utilization_alerts gm else [])
        ++ (if "Position Concentration" = t then concentration_alerts gm else [])
        ++ (if "Cancel Rate" = t then cancel_rate_alerts gm else [])
        ++ (if "Fleeting Orders" = t then fleeting_alerts gm else [])
        ++ (if "Sharpe Ratio" = t then sharpe_alerts gm else []) := by
  unfold check_alerts
  simp only [List.filter_append]
  rw [alerts_filter_block (fun a ha => mem_vpin_alerts ha) t,
    alerts_filter_block (fun a ha => mem_phantom_liquidity_alerts ha) t,
    alerts_filter_block (fun a ha => mem_liquidation_alerts ha) t,
    alerts_filter_block (fun a ha => mem_drawdown_alerts ha) t,
    alerts_filter_block (fun a ha => mem_utilization_alerts ha) t,
    alerts_filter_block (fun a ha => mem_concentration_alerts ha) t,
    alerts_filter_block (fun a ha => mem_cancel_rate_alerts ha) t,
    alerts_filter_block (fun a ha => mem_fleeting_alerts ha) t,
    alerts_filter_block (fun a ha => mem_sharpe_alerts ha) t]

/-- The VPIN block emits at most one alert. -/
theorem vpin_alerts_length (gm : GlobalMetrics) : (vpin_alerts gm).length ≤ 1 := by
  unfold vpin_alerts
  split_ifs <;> simp

/-- The phantom-liquidity block emits at most one alert. -/
theorem phantom_liquidity_alerts_length (gm : GlobalMetrics) :
    (phantom_liquidity_alerts gm).length ≤ 1 := by
  unfold phantom_liquidity_alerts
  split_ifs <;> simp

/-- The liquidation block emits at most one alert. -/
theorem liquidation_alerts_length (gm : GlobalMetrics) : (liquidation_alerts gm).length ≤ 1 := by
  unfold liquidation_alerts
  split_ifs <;> simp

/-- The drawdown block emits at most one alert. -/
theorem drawdown_alerts_length (gm : GlobalMetrics) : (drawdown_alerts gm).length ≤ 1 := by
  unfold drawdown_alerts
  split_ifs <;> simp

/-- Snapshot for the C2 counterexample: VPIN exactly 0.7, Sharpe neutral at
1, everything else zero or empty. -/
def gm_c2 : GlobalMetrics :=
  { vault_metrics := { tvl := 0, equity := 0, apr := 0, utilization_rate := 0,
                       deployed_liquidity := 0, idle_liquidity := 0 }
    performance_metrics := { daily_pnl := 0, unrealized_pnl := 0, total_volume := 0,
                             sharpe_ratio := 1, sortino_ratio := 0, realized_spread := [],
                             adverse_selection_cost := 0 }
    liquidity_metrics := { bid_ask_spread_bps := [], depth_at_50bps := [],
                           order_book_imbalance := [], avg_order_lifetime_ms := 0,
                           cancel_rate := 0, fleeting_order_ratio := 0,
                           layering_detection_score := 0, spoofing_detection_index := 0,
                           liquidity_realization_rate := 0,
                           fill_probability_by_distance := [] }
    risk_metrics := { vpin_score := 0.7, phantom_liquidity_index := 0,
                      liquidation_risk_score := 0, cascade_risk_score := 0,
                      position_concentration := [], max_drawdown := 0,
                      cross_exchange_manipulation_score := 0 }
    last_update := none }

/-- C2 counterexample: at `vpin_score = 0.7` the critical branch does not
fire, but `0.7 > 0.5` fires the Warning branch — the evaluator emits a VPIN
alert, contradicting the claim that a value exactly equal to its threshold
produces no alert for that metric. -/
theorem c2_counterexample :
    gm_c2.risk_metrics.vpin_score = 0.7
      ∧ (check_alerts gm_c2).filter (fun a => a.metric = "VPIN") ≠ [] := by
  constructor
  · rfl
  · rw [check_alerts_filter]
    norm_num +decide [vpin_alerts, gm_c2, create_alert]

/-- C2 (amended): the evaluator checks each metric's critical threshold
before its warning threshold, so per metric at most one alert fires per
call; every comparison is strict, so a value equal to a given threshold
never fires that threshold's branch — equality with the warning threshold
yields no alert for the metric, while equality with the critical threshold
still fires the warning (e.g. `vpin_score = 0.7` emits a Warning VPIN
alert, not none); Sharpe alone alerts, at Info level, exactly when strictly
below 1. -/
theorem c2_alert_threshold_semantics (gm : GlobalMetrics) :
    ((check_alerts gm).countP (fun a => a.metric = "VPIN") ≤ 1
        ∧ (check_alerts gm).countP (fun a => a.metric = "Phantom Liquidity") ≤ 1
        ∧ (check_alerts gm).countP (fun a => a.metric = "Liquidation Risk") ≤ 1
        ∧ (check_alerts gm).countP (fun a => a.metric = "Max Drawdown") ≤ 1)
      ∧ (gm.risk_metrics.vpin_score = 0.5 →
          (check_alerts gm).filter (fun a => a.metric = "VPIN") = [])
      ∧ (gm.risk_metrics.vpin_score = 0.7 →
          (check_alerts gm).filter (fun a => a.metric = "VPIN")
            = [create_alert .Warning "VPIN" 0.7 0.5])
      ∧ (gm.risk_metrics.phantom_liquidity_index = 0.4 →
          (check_alerts gm).filter (fun a => a.metric = "Phantom Liquidity") = [])
      ∧ (gm.risk_metrics.phantom_liquidity_index = 0.6 →
          (check_alerts gm).filter (fun a => a.metric = "Phantom Liquidity")
            = [create_alert .Warning "Phantom Liquidity" 0.6 0.4])
      ∧ (gm.risk_metrics.liquidation_risk_score = 0.7 →
          (check_alerts gm).filter (fun a => a.metric = "Liquidation Risk") = [])
      ∧ (gm.risk_metrics.liquidation_risk_score = 0.85 →
          (check_alerts gm).filter (fun a => a.metric = "Liquidation Risk")
            = [create_alert .Warning "Liquidation Risk" 0.85 0.7])
      ∧ (gm.risk_metrics.max_drawdown = 0.15 →
          (check_alerts gm).filter (fun a => a.metric = "Max Drawdown") = [])
      ∧ (gm.risk_metrics.max_drawdown = 0.25 →
          (check_alerts gm).filter (fun a => a.metric = "Max Drawdown")
            = [create_alert .Warning "Max Drawdown" 0.25 0.15])
      ∧ (gm.vault_metrics.utilization_rate = 0.9 →
          (check_alerts gm).filter (fun a => a.metric = "Utilization") = [])
      ∧ (max_concentration gm = 0.15 →
          (check_alerts gm).filter (fun a => a.metric = "Position Concentration") = [])
      ∧ (gm.liquidity_metrics.cancel_rate = 0.5 →
          (check_alerts gm).filter (fun a => a.metric = "Cancel Rate") = [])
      ∧ (gm.liquidity_metrics.fleeting_order_ratio = 0.2 →
          (check_alerts gm).filter (fun a => a.metric = "Fleeting Orders") = [])
      ∧ (gm.performance_metrics.sharpe_ratio < 1 →
          (check_alerts gm).filter (fun a => a.metric = "Sharpe Ratio")
            = [create_alert .Info "Sharpe Ratio" gm.performance_metrics.sharpe_ratio 1])
      ∧ (1 ≤ gm.performance_metrics.sharpe_ratio →
          (check_alerts gm).filter (fun a => a.metric = "Sharpe Ratio") = []) := by
  refine ⟨⟨?_, ?_, ?_, ?_⟩, ?_, ?_, ?_, ?_, ?_, ?_, ?_, ?_, ?_, ?_, ?_, ?_, ?_, ?_⟩
  · rw [List.countP_eq_length_filter, check_alerts_filter]
    simpa using vpin_alerts_length gm
  · rw [List.countP_eq_length_filter, check_alerts_filter]
    simpa using phantom_liquidity_alerts_length gm
  · rw [List.countP_eq_length_filter, check_alerts_filter]
    simpa using liquidation_alerts_length gm
  · rw [List.countP_eq_length_filter, check_alerts_filter]
    simpa using drawdown_alerts_length gm
  · intro h
    rw [check_alerts_filter]
    norm_num +decide [vpin_alerts, h]
  · intro h
    rw [check_alerts_filter]
    norm_num +decide [vpin_alerts, h]
  · intro h
    rw [check_alerts_filter]
    norm_num +decide [phantom_liquidity_alerts, h]
  · intro h
    rw [check_alerts_filter]
    norm_num +decide [phantom_liquidity_alerts, h]
  · intro h
    rw [check_alerts_filter]
    norm_num +decide [liquidation_alerts, h]
  · intro h
    rw [check_alerts_filter]
    norm_num +decide [liquidation_alerts, h]
  · intro h
    rw [check_alerts_filter]
    norm_num +decide [drawdown_alerts, h]
  · intro h
    rw [check_alerts_filter]
    norm_num +decide [drawdown_alerts, h]
  · intro h
    rw [check_alerts_filter]
    norm_num +decide [utilization_alerts, h]
  · intro h
    rw [check_alerts_filter]
    norm_num +decide [concentration_alerts, h]
  · intro h
    rw [check_alerts_filter]
    norm_num +decide [cancel_rate_alerts, h]
  · intro h
    rw [check_alerts_filter]
    norm_num +decide [fleeting_alerts, h]
  · intro h
    rw [check_alerts_filter]
    norm_num +decide [sharpe_alerts, h]
  · intro h
    have h' : ¬ (gm.performance_metrics.sharpe_ratio < 1) := not_lt.mpr h
    rw [check_alerts_filter]
    norm_num +decide [sharpe_alerts, h']

/-- Snapshot for the C2 witness: VPIN exactly at the warning threshold 0.5
and a healthy Sharpe of 2. -/
def gm_c2w : GlobalMetrics :=
  { vault_metrics := { tvl := 0, equity := 0, apr := 0, utilization_rate := 0,
                       deployed_liquidity := 0, idle_liquidity := 0 }
    performance_metrics := { daily_pnl := 0, unrealized_pnl := 0, total_volume := 0,
                             sharpe_ratio := 2, sortino_ratio := 0, realized_spread := [],
                             adverse_selection_cost := 0 }
    liquidity_metrics := { bid_ask_spread_bps := [], depth_at_50bps := [],
                           order_book_imbalance := [], avg_order_lifetime_ms := 0,
                           cancel_rate := 0, fleeting_order_ratio := 0,
                           layering_detection_score := 0, spoofing_detection_index := 0,
                           liquidity_realization_rate := 0,
                           fill_probability_by_distance := [] }
    risk_metrics := { vpin_score := 0.5, phantom_liquidity_index := 0,
                      liquidation_risk_score := 0, cascade_risk_score := 0,
                      position_concentration := [], max_drawdown := 0,
                      cross_exchange_manipulation_score := 0 }
    last_update := none }

/-- C2 witness: at `vpin_score = 0.5` (warning threshold exactly) no VPIN
alert fires, and at Sharpe 2 no Sharpe alert fires. -/
theorem c2_alert_threshold_semantics_witness :
    (check_alerts gm_c2w).filter (fun a => a.metric = "VPIN") = []
      ∧ (check_alerts gm_c2w).filter (fun a => a.metric = "Sharpe Ratio") = [] :=
  ⟨(c2_alert_threshold_semantics gm_c2w).2.1 rfl,
    (c2_alert_threshold_semantics gm_c2w).2.2.2.2.2.2.2.2.2.2.2.2.2.2
      (by norm_num [gm_c2w])⟩

/-- The last at-most-`n` elements of a list. -/
def lastN (n : ℕ) (l : List ℚ) : List ℚ := l.drop (l.length - n)

/-- Pushing onto a 50-capped ring (drop the oldest beyond 50) tracks the
last 50 elements of the unbounded push list. -/
theorem lastN_push (l : List ℚ) (v : ℚ) :
    (if 50 < (lastN 50 l ++ [v]).length then (lastN 50 l ++ [v]).drop 1
     else lastN 50 l ++ [v]) = lastN 50 (l ++ [v]) := by
  unfold lastN
  rcases Nat.lt_or_ge l.length 50 with hk | hk
  · have hlen : (l ++ [v]).length ≤ 50 := by
      simp only [List.length_append, List.length_cons, List.length_nil]
      omega
    rw [Nat.sub_eq_zero_of_le (le_of_lt hk), List.drop_zero,
      Nat.sub_eq_zero_of_le hlen, List.drop_zero, if_neg (not_lt.mpr hlen)]
  · have hd : (List.drop (l.length - 50) l).length = 50 := by
      rw [List.length_drop]
      omega
    have hcond : 50 < (List.drop (l.length - 50) l ++ [v]).length := by
      simp only [List.length_append, List.length_cons, List.length_nil, hd]
      omega
    rw [if_pos hcond, List.drop_append_eq_append_drop, List.drop_append_eq_append_drop,
      List.drop_drop, hd]
    simp only [List.length_append, List.length_cons, List.length_nil]
    norm_num
    congr 1
    omega

/-- Simulation relation between the batch VPIN loop state and the engine's
bucket accumulator and ring. -/
def VpinSim (st : VpinAcc) (e : StreamingMetricsEngine) : Prop :=
  e.bucket_accumulator.current_volume = st.current_bucket_volume
    ∧ e.bucket_accumulator.buy_volume = st.current_buy_volume
    ∧ e.bucket_accumulator.sell_volume = st.current_sell_volume
    ∧ e.bucket_accumulator.bucket_size = 10000
    ∧ e.vpin_buckets = lastN 50 st.buckets

/-- One major-asset fill preserves the batch/engine VPIN simulation. -/
theorem vpin_step_sim (meta : Meta) (fill : Fill)
    (hmaj : major_assets_contains meta fill.coin = true)
    {st : VpinAcc} {e : StreamingMetricsEngine} (hsim : VpinSim st e) :
    VpinSim (calculate_vpin_step meta st fill) (update_vpin_calculation fill e) := by
  rcases e with ⟨tb, l2s, vb, ⟨cv, bv, sv, bsz⟩, ofa, plt, ao, tv, vbc⟩
  rcases st with ⟨scv, sbv, ssv, sbk⟩
  obtain ⟨h1, h2, h3, h4, h5⟩ := hsim
  dsimp only at h1 h2 h3 h4 h5
  subst h1 h2 h3 h4 h5
  unfold calculate_vpin_step update_vpin_calculation VpinSim
  simp only [hmaj, if_true]
  by_cases hside : (fill.side == "B") = true
  · simp only [hside, if_true]
    by_cases ht : (10000 : ℚ) ≤ cv + fill.px * |fill.sz|
    · simp only [ht, if_true]
      by_cases hp : (0 : ℚ) < bv + fill.px * |fill.sz| + sv
      · simp only [hp, if_true]
        exact ⟨trivial, trivial, trivial, trivial, lastN_push sbk _⟩
      · simp only [hp, if_false]
        exact ⟨trivial, trivial, trivial, trivial, trivial⟩
    · simp only [ht, if_false]
      exact ⟨trivial, trivial, trivial, trivial, trivial⟩
  · simp only [hside, Bool.false_eq_true, if_false]
    by_cases ht : (10000 : ℚ) ≤ cv + fill.px * |fill.sz|
    · simp only [ht, if_true]
      by_cases hp : (0 : ℚ) < bv + (sv + fill.px * |fill.sz|)
      · simp only [hp, if_true]
        exact ⟨trivial, trivial, trivial, trivial, lastN_push sbk _⟩
      · simp only [hp, if_false]
        exact ⟨trivial, trivial, trivial, trivial, trivial⟩
    · simp only [ht, if_false]
      exact ⟨trivial, trivial, trivial, trivial, trivial⟩

/-- Replaying a list of major-asset fills preserves the batch/engine VPIN
simulation. -/
theorem vpin_fold_sim (meta : Meta) (fills : List Fill)
    (h : ∀ f ∈ fills, major_assets_contains meta f.coin = true)
    {st : VpinAcc} {e : StreamingMetricsEngine} (hsim : VpinSim st e) :
    VpinSim (fills.foldl (calculate_vpin_step meta) st)
      (fills.foldl (fun ee ff => update_vpin_calculation ff ee) e) := by
  induction fills generalizing st e with
  | nil => exact hsim
  | cons f fs ih =>
    simp only [List.foldl_cons]
    exact ih (fun g hg => h g (List.mem_cons_of_mem f hg))
      (vpin_step_sim meta f (h f (List.mem_cons_self f fs)) hsim)

/-- C3: on fill sequences restricted to major assets (leverage ceiling
≥ 10), the batch VPIN calculator agrees with replaying the fills in order
through the streaming engine's bucket algorithm and reading its current
VPIN view. -/
theorem c3_vpin_batch_streaming_equiv (fills : List Fill) (meta : Meta)
    (h : ∀ f ∈ fills, major_assets_contains meta f.coin = true) :
    calculate_vpin fills meta
      = get_current_vpin (fills.foldl (fun ee ff => update_vpin_calculation ff ee)
          StreamingMetricsEngine.new) := by
  obtain ⟨-, -, -, -, h5⟩ := @vpin_fold_sim meta fills h ⟨0, 0, 0, []⟩
    StreamingMetricsEngine.new ⟨rfl, rfl, rfl, rfl, rfl⟩
  by_cases hnil : fills = []
  · subst hnil
    rfl
  · simp only [calculate_vpin, get_current_vpin]
    rw [if_neg hnil, h5]
    by_cases hb : (fills.foldl (calculate_vpin_step meta) ⟨0, 0, 0, []⟩).buckets = []
    · rw [if_pos hb, hb]
      norm_num [lastN]
    · have hbne : lastN 50 (fills.foldl (calculate_vpin_step meta) ⟨0, 0, 0, []⟩).buckets ≠ [] := by
        intro hc
        apply hb
        have hlen := congrArg List.length hc
        rw [lastN, List.length_drop, List.length_nil] at hlen
        exact List.length_eq_zero.mp (by omega)
      have hwin : (fills.foldl (calculate_vpin_step meta) ⟨0, 0, 0, []⟩).buckets.drop
            ((fills.foldl (calculate_vpin_step meta) ⟨0, 0, 0, []⟩).buckets.length
              - min 50 (fills.foldl (calculate_vpin_step meta) ⟨0, 0, 0, []⟩).buckets.length)
          = lastN 50 (fills.foldl (calculate_vpin_step meta) ⟨0, 0, 0, []⟩).buckets := by
        unfold lastN
        congr 1
        omega
      rw [if_neg hb, if_neg hbne, hwin]

/-- Universe containing the single major asset "BTC" for the C3 witness. -/
def meta_c3 : Meta :=
  { asset_universe := [{ name := "BTC", sz_decimals := 2, max_leverage := 50,
                         only_isolated := false }] }

/-- Single buy fill whose notional 10000 fills a whole bucket, for the C3
witness. -/
def fills_c3 : List Fill :=
  [{ coin := "BTC", px := 10000, sz := 1, side := "B", time := 0, start_position := 0,
     dir := "Open Long", closed_pnl := 0, hash := "0xc3", oid := 4, crossed := true,
     fee := 0 }]

/-- C3 witness: the one-bucket replay agrees between the batch calculator
and the streaming engine, and both report VPIN 1. -/
theorem c3_vpin_batch_streaming_equiv_witness :
    (∀ f ∈ fills_c3, major_assets_contains meta_c3 f.coin = true)
      ∧ calculate_vpin fills_c3 meta_c3
          = get_current_vpin (fills_c3.foldl (fun ee ff => update_vpin_calculation ff ee)
              StreamingMetricsEngine.new)
      ∧ calculate_vpin fills_c3 meta_c3 = 1 :=
  ⟨by decide, c3_vpin_batch_streaming_equiv fills_c3 meta_c3 (by decide),
    by norm_num [calculate_vpin, calculate_vpin_step, major_assets_contains, fills_c3,
      meta_c3, lastN]⟩
